import Mathlib

/-!
Verification of the OpenCarbon crown-geometry pipeline and nearest-neighbor
allometric estimator, shallowly embedded from the repository sources
(`models/database.py`, `models/calculator.py`, `utils/drone_pipeline.py`,
`app.py`).  Numeric values are modelled over `ℚ` (exact arithmetic for the
polynomial computations of the code) and over `ℝ` where the code takes a
square root.
-/

namespace OpenCarbon

/-- A row of the `allometric_reference` table (`models/database.py`,
`AllometricReference`): an integer id plus diameter, height and carbon. -/
structure AllometricReference where
  id : ℕ
  crown_diameter_m : ℚ
  height_m : ℚ
  carbon_tonnes : ℚ
  deriving DecidableEq, Repr

/-- The squared-Euclidean distance expression of
`Calculator.estimate_carbon_tonnes` (`models/calculator.py` lines 21-24):
`pow(ref.crown_diameter_m - d, 2) + pow(ref.height_m - h, 2)`. -/
def sqDist (r : AllometricReference) (d h : ℚ) : ℚ :=
  (r.crown_diameter_m - d) ^ 2 + (r.height_m - h) ^ 2

/-- One comparison step of the `ORDER BY distance ASC LIMIT 1` scan: keep the
current best row unless a later row is strictly closer (ties keep the earlier
row, matching an id-ascending table scan). -/
def betterRow (d h : ℚ) (best s : AllometricReference) : AllometricReference :=
  if sqDist s d h < sqDist best d h then s else best

/-- The row selected by `select(AllometricReference).order_by(distance.asc()).limit(1)`
(`models/calculator.py` lines 25-30): `none` on an empty store, otherwise a
row of minimal squared distance. -/
def nearestRow (d h : ℚ) : List AllometricReference → Option AllometricReference
  | [] => none
  | r :: rs => some (rs.foldl (betterRow d h) r)

/-- `Calculator.estimate_carbon_tonnes` (`models/calculator.py` lines 14-31):
`float(row.carbon_tonnes) if row else 0.0`. -/
def estimate_carbon_tonnes (store : List AllometricReference) (d h : ℚ) : ℚ :=
  match nearestRow d h store with
  | some r => r.carbon_tonnes
  | none => 0

/-- The default seed rows of `DatabaseManager.seed_defaults`
(`models/database.py` lines 42-47), with autoincrement ids 1..4. -/
def seed_defaults : List AllometricReference :=
  [⟨1, 2, 4, 3/100⟩, ⟨2, 4, 8, 12/100⟩, ⟨3, 6, 12, 35/100⟩, ⟨4, 8, 16, 75/100⟩]

lemma betterRow_le_left (d h : ℚ) (best s : AllometricReference) :
    sqDist (betterRow d h best s) d h ≤ sqDist best d h := by
  unfold betterRow
  split
  · exact le_of_lt (by assumption)
  · exact le_refl _

lemma betterRow_le_right (d h : ℚ) (best s : AllometricReference) :
    sqDist (betterRow d h best s) d h ≤ sqDist s d h := by
  unfold betterRow
  split
  · exact le_refl _
  · exact le_of_not_lt (by assumption)

lemma betterRow_mem (d h : ℚ) (best s : AllometricReference) :
    betterRow d h best s = best ∨ betterRow d h best s = s := by
  unfold betterRow
  split
  · exact Or.inr rfl
  · exact Or.inl rfl

lemma foldl_betterRow_spec (d h : ℚ) (l : List AllometricReference) :
    ∀ init : AllometricReference,
      (l.foldl (betterRow d h) init = init ∨ l.foldl (betterRow d h) init ∈ l) ∧
      sqDist (l.foldl (betterRow d h) init) d h ≤ sqDist init d h ∧
      ∀ s ∈ l, sqDist (l.foldl (betterRow d h) init) d h ≤ sqDist s d h := by
  induction l with
  | nil =>
    intro init
    exact ⟨Or.inl rfl, le_refl _, by intro s hs; cases hs⟩
  | cons r rs ih =>
    intro init
    have hstep := ih (betterRow d h init r)
    rcases hstep with ⟨hmem, hle, hall⟩
    refine ⟨?_, ?_, ?_⟩
    · rcases hmem with heq | hin
      · rw [List.foldl_cons, heq]
        rcases betterRow_mem d h init r with h1 | h1
        · exact Or.inl h1
        · exact Or.inr (by rw [h1]; exact List.mem_cons_self _ _)
      · exact Or.inr (List.mem_cons_of_mem _ hin)
    · rw [List.foldl_cons]
      exact le_trans hle (betterRow_le_left d h init r)
    · intro s hs
      rw [List.foldl_cons]
      rcases List.mem_cons.mp hs with hs | hs
      · subst hs
        exact le_trans hle (betterRow_le_right d h init s)
      · exact hall s hs

/-- The caller-side height substitution of `app.py` line 53:
`r.get("max_height_m") or 10.0`.  A missing / `None` value and any falsy
float (exactly `0.0`) both fall through Python's `or` to the literal `10.0`. -/
def heightOrDefault : Option ℚ → ℚ
  | none => 10
  | some v => if v = 0 then 10 else v

/-- A detection bounding box in pixel coordinates, as read from the
DeepForest dataframe (`utils/drone_pipeline.py` line 52). -/
structure DetectionBox where
  xmin : ℚ
  ymin : ℚ
  xmax : ℚ
  ymax : ℚ
  deriving DecidableEq, Repr

/-- A rasterio 6-parameter affine transform `(a, b, c, d, e, f)` mapping
pixel `(col, row)` to map `(x, y)`:
`x = a*col + b*row + c`, `y = d*col + e*row + f`. -/
structure Affine where
  a : ℚ
  b : ℚ
  c : ℚ
  d : ℚ
  e : ℚ
  f : ℚ
  deriving DecidableEq, Repr

/-- `rasterio.transform.xy(transform, row, col, offset="ul")`: the map
coordinate of the upper-left corner of pixel `(row, col)` — the affine
applied to `(col, row)` with no half-pixel offset. -/
def Affine.xy (t : Affine) (row col : ℚ) : ℚ × ℚ :=
  (t.a * col + t.b * row + t.c, t.d * col + t.e * row + t.f)

/-- An axis-aligned rectangle in map coordinates, as produced by
`shapely.geometry.box(minx, miny, maxx, maxy)`. -/
structure Rect where
  minx : ℚ
  miny : ℚ
  maxx : ℚ
  maxy : ℚ
  deriving DecidableEq, Repr

/-- The loop body of `detect_tree_crowns_from_orthomosaic`
(`utils/drone_pipeline.py` lines 55-57): map the two diagonal pixel corners
`(xmin, ymin)` and `(xmax, ymax)` through the affine at the upper-left
convention, then take `box(min(x1,x2), min(y1,y2), max(x1,x2), max(y1,y2))`. -/
def boxToPolygon (t : Affine) (bx : DetectionBox) : Rect :=
  let p1 := t.xy bx.ymin bx.xmin
  let p2 := t.xy bx.ymax bx.xmax
  ⟨min p1.1 p2.1, min p1.2 p2.2, max p1.1 p2.1, max p1.2 p2.2⟩

/-- The full conversion loop (`utils/drone_pipeline.py` lines 50-57): every
row of the detections dataframe is converted; there is no validation and no
box is skipped. -/
def pixelToMapPolygons (t : Affine) (boxes : List DetectionBox) : List Rect :=
  boxes.map (boxToPolygon t)

/-- The facts the pipeline reads off a pyproj CRS: whether it is geographic
(angular units) and an identifying EPSG-style code. -/
structure CRS where
  is_geographic : Bool
  epsg : ℤ
  deriving DecidableEq, Repr

/-- A GeoDataFrame of crown polygons: geometries plus an optional CRS
(`crowns.crs` may be unset on a general GeoDataFrame). -/
structure Crowns where
  geoms : List Rect
  crs : Option CRS
  deriving DecidableEq, Repr

/-- `utm_zone = int((centroid.x + 180) // 6) + 1`
(`utils/drone_pipeline.py` line 64). -/
def utm_zone (lon : ℚ) : ℤ :=
  Int.floor ((lon + 180) / 6) + 1

/-- `utm_epsg = 32600 + utm_zone if centroid.y >= 0 else 32700 + utm_zone`
(`utils/drone_pipeline.py` line 65). -/
def utm_epsg (lon lat : ℚ) : ℤ :=
  if 0 ≤ lat then 32600 + utm_zone lon else 32700 + utm_zone lon

/-- The CRS-normalization stage (`utils/drone_pipeline.py` lines 62-66):
`if crowns.crs and crowns.crs.is_geographic:` compute the centroid of the
union of the geometries, pick the UTM EPSG code from it, and reproject every
geometry with `to_crs`.  The union-centroid computation (shapely
`unary_union.centroid`) and the reprojection (geopandas `to_crs`) are
external library calls, passed in as parameters `unionCentroid` and
`toCrs`.  A missing (`None`, falsy) CRS or a non-geographic CRS leaves the
batch unchanged. -/
def normalizeCrs (unionCentroid : List Rect → ℚ × ℚ) (toCrs : ℤ → Rect → Rect)
    (crowns : Crowns) : Crowns :=
  match crowns.crs with
  | some c =>
    if c.is_geographic then
      let cen := unionCentroid crowns.geoms
      let epsg := utm_epsg cen.1 cen.2
      ⟨crowns.geoms.map (toCrs epsg), some ⟨false, epsg⟩⟩
    else crowns
  | none => crowns

/-- Planar area of an axis-aligned rectangle, as computed by shapely
`.area` on a `box` geometry (used at `utils/drone_pipeline.py` line 69). -/
def Rect.area (r : Rect) : ℚ :=
  (r.maxx - r.minx) * (r.maxy - r.miny)

/-- Centroid of an axis-aligned rectangle, as computed by shapely
`.centroid` (used at `utils/drone_pipeline.py` line 68). -/
def Rect.centroid (r : Rect) : ℚ × ℚ :=
  ((r.minx + r.maxx) / 2, (r.miny + r.maxy) / 2)

/-- One output row of the geometry-derivation stage: geometry plus the
`centroid` and `crown_area_m2` columns added at
`utils/drone_pipeline.py` lines 68-69. -/
structure CrownRow where
  geom : Rect
  centroid : ℚ × ℚ
  crown_area_m2 : ℚ
  deriving DecidableEq, Repr

/-- The geometry-derivation stage (`utils/drone_pipeline.py` lines 68-69):
add centroid and area columns to every geometry of the batch.  It performs
no CRS check and never fails. -/
def deriveGeometry (crowns : Crowns) : List CrownRow :=
  crowns.geoms.map (fun g => ⟨g, g.centroid, g.area⟩)

/-- `crowns["crown_diameter_m"] = 2.0 * np.sqrt(crowns["crown_area_m2"] / np.pi)`
(`utils/drone_pipeline.py` line 70), as a real-valued function of the area. -/
noncomputable def crown_diameter_m (area : ℝ) : ℝ :=
  2 * Real.sqrt (area / Real.pi)

/-- Claim C1: for every query `(crown_diameter_m, height_m)` and every
non-empty reference store, `estimate_carbon_tonnes` returns the
`carbon_tonnes` value of a reference row that minimizes the squared
Euclidean distance `(ref.crown_diameter_m - d)^2 + (ref.height_m - h)^2`
over all rows in the store. -/
theorem C1_nearest_neighbor_minimizes (store : List AllometricReference) (d h : ℚ)
    (hne : store ≠ []) :
    ∃ r ∈ store, estimate_carbon_tonnes store d h = r.carbon_tonnes ∧
      ∀ s ∈ store, sqDist r d h ≤ sqDist s d h := by
  match store, hne with
  | r :: rs, _ =>
    obtain ⟨hmem, hle, hall⟩ := foldl_betterRow_spec d h rs r
    refine ⟨rs.foldl (betterRow d h) r, ?_, rfl, ?_⟩
    · rcases hmem with heq | hin
      · rw [heq]; exact List.mem_cons_self _ _
      · exact List.mem_cons_of_mem _ hin
    · intro s hs
      rcases List.mem_cons.mp hs with hs | hs
      · subst hs; exact hle
      · exact hall s hs

/-- Witness for C1: at the default seed store and query `(3, 7)`, the
hypotheses hold and the estimator returns a distance-minimizing row. -/
theorem C1_witness :
    ∃ r ∈ seed_defaults, estimate_carbon_tonnes seed_defaults 3 7 = r.carbon_tonnes ∧
      ∀ s ∈ seed_defaults, sqDist r 3 7 ≤ sqDist s 3 7 :=
  C1_nearest_neighbor_minimizes seed_defaults 3 7 (by simp [seed_defaults])

/-- Claim C3: for every rectangle with area `A` (in a metric CRS), the
derived diameter is `2 * sqrt(A / π)`; a 10×10 square (area 100 m²) gives
`2*sqrt(100/π)`, which lies strictly between 11.2837 and 11.2838 (≈ 11.2838),
and a degenerate zero-area rectangle gives diameter 0. -/
theorem C3_crown_diameter_formula :
    (∀ r : Rect, crown_diameter_m ((Rect.area r : ℚ) : ℝ) =
        2 * Real.sqrt (((Rect.area r : ℚ) : ℝ) / Real.pi)) ∧
    Rect.area ⟨0, 0, 10, 10⟩ = 100 ∧
    crown_diameter_m ((Rect.area ⟨0, 0, 10, 10⟩ : ℚ) : ℝ) = 2 * Real.sqrt (100 / Real.pi) ∧
    11.2837 < crown_diameter_m ((Rect.area ⟨0, 0, 10, 10⟩ : ℚ) : ℝ) ∧
    crown_diameter_m ((Rect.area ⟨0, 0, 10, 10⟩ : ℚ) : ℝ) < 11.2838 ∧
    Rect.area ⟨3, 4, 3, 4⟩ = 0 ∧
    crown_diameter_m ((Rect.area ⟨3, 4, 3, 4⟩ : ℚ) : ℝ) = 0 := by
  have harea : Rect.area ⟨0, 0, 10, 10⟩ = 100 := by norm_num [Rect.area]
  have hcast : ((Rect.area ⟨0, 0, 10, 10⟩ : ℚ) : ℝ) = 100 := by
    rw [harea]; norm_num
  have hzero : Rect.area ⟨3, 4, 3, 4⟩ = 0 := by norm_num [Rect.area]
  have hzcast : ((Rect.area ⟨3, 4, 3, 4⟩ : ℚ) : ℝ) = 0 := by rw [hzero]; norm_num
  have hπu : Real.pi < 3.141593 := Real.pi_lt_d6
  have hπl : (3.141592 : ℝ) < Real.pi := Real.pi_gt_d6
  have hπ0 : (0 : ℝ) < Real.pi := Real.pi_pos
  refine ⟨fun r => rfl, harea, by rw [hcast]; rfl, ?_, ?_, hzero, ?_⟩
  · rw [hcast]
    unfold crown_diameter_m
    have h1 : (5.64185 : ℝ) < Real.sqrt (100 / Real.pi) := by
      rw [show (5.64185 : ℝ) = Real.sqrt (5.64185 ^ 2) by rw [Real.sqrt_sq (by norm_num)]]
      apply Real.sqrt_lt_sqrt (by positivity)
      rw [lt_div_iff₀ hπ0]
      nlinarith
    nlinarith
  · rw [hcast]
    unfold crown_diameter_m
    have h1 : Real.sqrt (100 / Real.pi) < 5.6419 := by
      rw [show (5.6419 : ℝ) = Real.sqrt (5.6419 ^ 2) by rw [Real.sqrt_sq (by norm_num)]]
      apply Real.sqrt_lt_sqrt (by positivity)
      rw [div_lt_iff₀ hπ0]
      nlinarith
    nlinarith
  · rw [hzcast]
    simp [crown_diameter_m]

/-- Claim C4: for every well-formed box (`xmin < xmax`, `ymin < ymax`) and
every affine transform, the transformer maps exactly the two diagonal pixel
corners `(xmin, ymin)` and `(xmax, ymax)` at the upper-left-of-pixel
convention, and the output is the axis-aligned rectangle of the min/max of
the two transformed coordinates, hence well-formed even for transforms with
a negative row-to-y scale. -/
theorem C4_pixel_to_map_box (t : Affine) (bx : DetectionBox)
    (hx : bx.xmin < bx.xmax) (hy : bx.ymin < bx.ymax) :
    boxToPolygon t bx =
      ⟨min (t.xy bx.ymin bx.xmin).1 (t.xy bx.ymax bx.xmax).1,
       min (t.xy bx.ymin bx.xmin).2 (t.xy bx.ymax bx.xmax).2,
       max (t.xy bx.ymin bx.xmin).1 (t.xy bx.ymax bx.xmax).1,
       max (t.xy bx.ymin bx.xmin).2 (t.xy bx.ymax bx.xmax).2⟩ ∧
    (boxToPolygon t bx).minx ≤ (boxToPolygon t bx).maxx ∧
    (boxToPolygon t bx).miny ≤ (boxToPolygon t bx).maxy := by
  refine ⟨rfl, ?_, ?_⟩
  · show min _ _ ≤ max _ _
    exact le_trans (min_le_left _ _) (le_max_left _ _)
  · show min _ _ ≤ max _ _
    exact le_trans (min_le_left _ _) (le_max_left _ _)

/-- Witness for C4: a concrete box and a north-up transform with negative
row-to-y scale (`e = -1`) yield a well-formed rectangle. -/
theorem C4_witness :
    (boxToPolygon ⟨1, 0, 0, 0, -1, 100⟩ ⟨2, 3, 5, 7⟩).minx ≤
      (boxToPolygon ⟨1, 0, 0, 0, -1, 100⟩ ⟨2, 3, 5, 7⟩).maxx ∧
    (boxToPolygon ⟨1, 0, 0, 0, -1, 100⟩ ⟨2, 3, 5, 7⟩).miny ≤
      (boxToPolygon ⟨1, 0, 0, 0, -1, 100⟩ ⟨2, 3, 5, 7⟩).maxy :=
  (C4_pixel_to_map_box ⟨1, 0, 0, 0, -1, 100⟩ ⟨2, 3, 5, 7⟩
    (by norm_num) (by norm_num)).2

/-- Claim C6: for every query, the estimator on an empty reference store
selects no row (the non-fatal empty-store condition) and returns `0.0`
without failing. -/
theorem C6_empty_store_returns_zero (d h : ℚ) :
    nearestRow d h [] = none ∧ estimate_carbon_tonnes [] d h = 0 :=
  ⟨rfl, rfl⟩

/-- Claim C10: at the caller side (`app.py` line 53), the default height
`10.0` is substituted both when `max_height_m` is `None` and when it is the
falsy value `0.0`, so the carbon estimate for a crown of recorded height 0
equals the estimate for a crown of unknown height. -/
theorem C10_falsy_height_defaults (store : List AllometricReference) (d : ℚ) :
    heightOrDefault (some 0) = 10 ∧ heightOrDefault none = 10 ∧
    estimate_carbon_tonnes store d (heightOrDefault (some 0)) =
      estimate_carbon_tonnes store d (heightOrDefault none) := by
  refine ⟨by simp [heightOrDefault], rfl, ?_⟩
  simp [heightOrDefault]

/-- Claim C2: for every batch whose CRS is geographic, normalization takes
the centroid of the union of the geometries (computed by the external
`unary_union.centroid`, parameter `uc`), sets
`zone = floor((lon + 180)/6) + 1`, picks EPSG `32600 + zone` when the
centroid latitude is ≥ 0 and `32700 + zone` otherwise, and reprojects every
polygon of the batch into that single CRS; a centroid of (49.2 N, -123.1 E)
yields EPSG 32610. -/
theorem C2_geographic_batch_single_utm (uc : List Rect → ℚ × ℚ)
    (tc : ℤ → Rect → Rect) (crowns : Crowns) (c : CRS)
    (hc : crowns.crs = some c) (hg : c.is_geographic = true) :
    (normalizeCrs uc tc crowns).crs =
      some ⟨false, utm_epsg (uc crowns.geoms).1 (uc crowns.geoms).2⟩ ∧
    (normalizeCrs uc tc crowns).geoms =
      crowns.geoms.map (tc (utm_epsg (uc crowns.geoms).1 (uc crowns.geoms).2)) ∧
    (∀ lon lat : ℚ, 0 ≤ lat →
      utm_epsg lon lat = 32600 + (Int.floor ((lon + 180) / 6) + 1)) ∧
    (∀ lon lat : ℚ, lat < 0 →
      utm_epsg lon lat = 32700 + (Int.floor ((lon + 180) / 6) + 1)) ∧
    utm_epsg (-123.1) 49.2 = 32610 := by
  refine ⟨?_, ?_, ?_, ?_, ?_⟩
  · unfold normalizeCrs
    rw [hc]
    simp [hg]
  · unfold normalizeCrs
    rw [hc]
    simp [hg]
  · intro lon lat hlat
    simp [utm_epsg, utm_zone, hlat]
  · intro lon lat hlat
    simp [utm_epsg, utm_zone, not_le.mpr hlat]
  · norm_num [utm_epsg, utm_zone]

/-- Witness for C2: a concrete geographic batch whose union centroid is
(49.2 N, -123.1 E) is reprojected to EPSG 32610 with every geometry mapped
by the reprojection. -/
theorem C2_witness :
    (normalizeCrs (fun _ => (-123.1, 49.2)) (fun _ r => r)
        ⟨[⟨0, 0, 1, 1⟩], some ⟨true, 4326⟩⟩).crs =
      some ⟨false, utm_epsg ((fun (_ : List Rect) => ((-123.1 : ℚ), (49.2 : ℚ)))
        [⟨0, 0, 1, 1⟩]).1 ((fun (_ : List Rect) => ((-123.1 : ℚ), (49.2 : ℚ)))
        [⟨0, 0, 1, 1⟩]).2⟩ ∧
    (normalizeCrs (fun _ => (-123.1, 49.2)) (fun _ r => r)
        ⟨[⟨0, 0, 1, 1⟩], some ⟨true, 4326⟩⟩).geoms =
      ([⟨0, 0, 1, 1⟩] : List Rect).map ((fun (_ : ℤ) (r : Rect) => r)
        (utm_epsg ((fun (_ : List Rect) => ((-123.1 : ℚ), (49.2 : ℚ)))
          [⟨0, 0, 1, 1⟩]).1 ((fun (_ : List Rect) => ((-123.1 : ℚ), (49.2 : ℚ)))
          [⟨0, 0, 1, 1⟩]).2)) ∧
    (∀ lon lat : ℚ, 0 ≤ lat →
      utm_epsg lon lat = 32600 + (Int.floor ((lon + 180) / 6) + 1)) ∧
    (∀ lon lat : ℚ, lat < 0 →
      utm_epsg lon lat = 32700 + (Int.floor ((lon + 180) / 6) + 1)) ∧
    utm_epsg (-123.1) 49.2 = 32610 :=
  C2_geographic_batch_single_utm (fun _ => (-123.1, 49.2)) (fun _ r => r)
    ⟨[⟨0, 0, 1, 1⟩], some ⟨true, 4326⟩⟩ ⟨true, 4326⟩ rfl rfl

/-- Counterexample for C5: a concrete batch with a missing (`None`) CRS is
returned unchanged by the normalization stage — no error condition arises —
and the geometry-derivation stage still computes centroid and area for it,
so the pipeline proceeds rather than failing. -/
theorem C5_counterexample :
    normalizeCrs (fun _ => (0, 0)) (fun _ r => r) ⟨[⟨0, 0, 10, 10⟩], none⟩ =
      (⟨[⟨0, 0, 10, 10⟩], none⟩ : Crowns) ∧
    deriveGeometry (⟨[⟨0, 0, 10, 10⟩], none⟩ : Crowns) =
      [⟨⟨0, 0, 10, 10⟩, (5, 5), 100⟩] := by
  constructor
  · rfl
  · norm_num [deriveGeometry, Rect.centroid, Rect.area]

/-- Amended C5: for every batch whose CRS is undefined or missing, the
normalization stage does not fail: the falsy-CRS guard skips reprojection,
the batch is returned unchanged, and the pipeline proceeds to compute
centroid and area (and from the area, the diameter) for every geometry. -/
theorem C5_missing_crs_proceeds (uc : List Rect → ℚ × ℚ) (tc : ℤ → Rect → Rect)
    (crowns : Crowns) (hc : crowns.crs = none) :
    normalizeCrs uc tc crowns = crowns ∧
    deriveGeometry (normalizeCrs uc tc crowns) =
      crowns.geoms.map (fun g => ⟨g, g.centroid, g.area⟩) := by
  have hid : normalizeCrs uc tc crowns = crowns := by
    unfold normalizeCrs
    rw [hc]
  exact ⟨hid, by rw [hid]; rfl⟩

/-- Witness for amended C5: the concrete CRS-less batch passes through
normalization unchanged and derivation computes its columns. -/
theorem C5_witness :
    normalizeCrs (fun _ => (0, 0)) (fun _ r => r) ⟨[⟨0, 0, 10, 10⟩], none⟩ =
      (⟨[⟨0, 0, 10, 10⟩], none⟩ : Crowns) ∧
    deriveGeometry (normalizeCrs (fun _ => (0, 0)) (fun _ r => r)
        ⟨[⟨0, 0, 10, 10⟩], none⟩) =
      ([⟨0, 0, 10, 10⟩] : List Rect).map (fun g => ⟨g, g.centroid, g.area⟩) :=
  C5_missing_crs_proceeds (fun _ => (0, 0)) (fun _ r => r)
    ⟨[⟨0, 0, 10, 10⟩], none⟩ rfl

/-- Claim C7: for every batch whose CRS is already projected (not
geographic), normalization is the identity: the output equals the input and
no reprojection occurs. -/
theorem C7_projected_crs_identity (uc : List Rect → ℚ × ℚ)
    (tc : ℤ → Rect → Rect) (crowns : Crowns) (c : CRS)
    (hc : crowns.crs = some c) (hp : c.is_geographic = false) :
    normalizeCrs uc tc crowns = crowns := by
  unfold normalizeCrs
  rw [hc]
  simp [hp]

/-- Witness for C7: a concrete batch in projected EPSG 32610 passes through
normalization unchanged. -/
theorem C7_witness :
    normalizeCrs (fun _ => (0, 0)) (fun _ r => r)
        ⟨[⟨0, 0, 10, 10⟩], some ⟨false, 32610⟩⟩ =
      (⟨[⟨0, 0, 10, 10⟩], some ⟨false, 32610⟩⟩ : Crowns) :=
  C7_projected_crs_identity (fun _ => (0, 0)) (fun _ r => r)
    ⟨[⟨0, 0, 10, 10⟩], some ⟨false, 32610⟩⟩ ⟨false, 32610⟩ rfl rfl

/-- Counterexample for C8: the seed row (6, 12) also lies at squared
distance 5 from the query (5, 10), so the (4, 8) row's distance 5 is not
strictly smaller than every other row's distance — the two rows tie. -/
theorem C8_counterexample :
    (⟨3, 6, 12, 35/100⟩ : AllometricReference) ∈ seed_defaults ∧
    sqDist ⟨2, 4, 8, 12/100⟩ 5 10 = 5 ∧
    sqDist ⟨3, 6, 12, 35/100⟩ 5 10 = 5 ∧
    ¬ sqDist ⟨2, 4, 8, 12/100⟩ 5 10 < sqDist ⟨3, 6, 12, 35/100⟩ 5 10 := by
  refine ⟨by simp [seed_defaults], by norm_num [sqDist], by norm_num [sqDist], ?_⟩
  norm_num [sqDist]

/-- Amended C8: against the default seed table, `estimate(4, 8)` returns
exactly `0.12`, and `estimate(5, 10)` also returns `0.12`: the (4, 8) row
attains the minimum squared distance 5, tying with the (6, 12) row (every
row is at distance ≥ 5), and the tie resolves to the (4, 8) row because it
precedes (6, 12) in the store's id-ascending scan order. -/
theorem C8_seed_estimates :
    estimate_carbon_tonnes seed_defaults 4 8 = 12/100 ∧
    estimate_carbon_tonnes seed_defaults 5 10 = 12/100 ∧
    (∀ s ∈ seed_defaults, 5 ≤ sqDist s 5 10) ∧
    sqDist ⟨2, 4, 8, 12/100⟩ 5 10 = 5 ∧
    sqDist ⟨3, 6, 12, 35/100⟩ 5 10 = 5 := by
  refine ⟨?_, ?_, ?_, by norm_num [sqDist], by norm_num [sqDist]⟩
  · norm_num [estimate_carbon_tonnes, nearestRow, betterRow, sqDist, seed_defaults]
  · norm_num [estimate_carbon_tonnes, nearestRow, betterRow, sqDist, seed_defaults]
  · intro s hs
    simp only [seed_defaults, List.mem_cons, List.not_mem_nil, or_false] at hs
    rcases hs with h | h | h | h <;> subst h <;> norm_num [sqDist]

/-- Counterexample for C9: a batch holding a malformed box (xmin = 5 ≥
xmax = 3) is fully converted — both boxes yield a polygon, the malformed one
the rectangle (3, 1, 5, 4) — so the offending box is not skipped and no
skipped count is produced. -/
theorem C9_counterexample :
    pixelToMapPolygons ⟨1, 0, 0, 0, 1, 0⟩ [⟨0, 0, 2, 2⟩, ⟨5, 1, 3, 4⟩] =
      [⟨0, 0, 2, 2⟩, ⟨3, 1, 5, 4⟩] ∧
    (pixelToMapPolygons ⟨1, 0, 0, 0, 1, 0⟩ [⟨0, 0, 2, 2⟩, ⟨5, 1, 3, 4⟩]).length = 2 := by
  constructor
  · norm_num [pixelToMapPolygons, boxToPolygon, Affine.xy]
  · rfl

/-- Amended C9: the transformer performs no per-box validation: every
DetectionBox of the batch — malformed or not — is converted to exactly one
polygon (none is skipped, the batch is never aborted, and no skipped-box
count exists), and the min/max construction makes every output rectangle
well-formed, degenerate for a malformed box. -/
theorem C9_no_box_skipped (t : Affine) (boxes : List DetectionBox) :
    (pixelToMapPolygons t boxes).length = boxes.length ∧
    ∀ p ∈ pixelToMapPolygons t boxes, p.minx ≤ p.maxx ∧ p.miny ≤ p.maxy := by
  refine ⟨List.length_map _ _, ?_⟩
  intro p hp
  rcases List.mem_map.mp hp with ⟨bx, _, hbx⟩
  subst hbx
  constructor
  · exact le_trans (min_le_left _ _) (le_max_left _ _)
  · exact le_trans (min_le_left _ _) (le_max_left _ _)

end OpenCarbon
